import Mathlib

/-!
Shallow embedding of the backup/restore decision logic of
`mackup/application.py` (class `ApplicationProfile`).

Each relative filename of the file set resolves to a home-side path and a
backup-side path; distinct filenames resolve to distinct paths, so the
filesystem state relevant to one file is the pair of entries at those two
paths.  Entry kinds model what the `os.path` predicates used by the source
(`isfile`, `isdir`, `islink`, `exists`) observe; the first three of those
follow symlinks, and `exists` returns false on a broken symlink.

The collaborators `utils.confirm`, `utils.copy`, `utils.delete` and
`utils.can_file_be_synced_on_current_platform` are not part of the core
source file; the confirmation answer and the platform predicate are inputs
(one Boolean per file), and the state effects of copy/delete are modelled
from the spec's FileOps contract.  Every collaborator call is recorded as
an event, so ordering and gating properties are statements about traces.
-/

namespace Mackup

/-- Kind of the filesystem entry found at one path.  Symlink entries record
the kind of their target; `brokenLink` is a symlink whose target does not
exist; `special` is an existing entry that is none of regular file,
directory, or symlink (named pipe, socket, device node).  `content` is an
abstract content identifier for a file or directory tree. -/
inductive Entry where
  | absent
  | file (content : Nat)
  | dir (content : Nat)
  | linkFile (content : Nat)
  | linkDir (content : Nat)
  | linkSpecial
  | brokenLink
  | special
deriving DecidableEq

/-- Embeds `os.path.isfile`: true for a regular file or a symlink resolving
to one (the Python predicate follows symlinks). -/
def isfile : Entry → Bool
  | .file _ => true
  | .linkFile _ => true
  | _ => false

/-- Embeds `os.path.isdir`: true for a directory or a symlink resolving to
one. -/
def isdir : Entry → Bool
  | .dir _ => true
  | .linkDir _ => true
  | _ => false

/-- Embeds `os.path.islink`: true for any symlink, broken or not. -/
def islink : Entry → Bool
  | .linkFile _ => true
  | .linkDir _ => true
  | .linkSpecial => true
  | .brokenLink => true
  | _ => false

/-- Embeds `os.path.exists`: follows symlinks, hence false on a broken
symlink and false on an absent entry, true on everything else. -/
def pexists : Entry → Bool
  | .absent => false
  | .brokenLink => false
  | _ => true

/-- True when some directory entry is present at the path at all (what
`os.path.lexists` would report): everything except `absent`. -/
def entryExists : Entry → Bool
  | .absent => false
  | _ => true

/-- Which of the two paths of a file an action touches. -/
inductive Side where
  | home
  | backup
deriving DecidableEq

/-- Kinds of console messages the source prints, named after their text. -/
inductive Msg where
  | statusVerbose
  | statusTerse
  | alreadyBackedUp
  | alreadyLinked
  | brokenLinkMsg
  | doesNotExist
deriving DecidableEq

/-- Observable events of one backup/restore step: collaborator calls
(confirmation, delete, copy) and printed messages, in order. -/
inductive Ev where
  | printed (m : Msg)
  | confirmAsked (answer : Bool)
  | deleted (s : Side)
  | copied (src dst : Side)
deriving DecidableEq

/-- Filesystem state relevant to one file: the entry at its home path and
the entry at its backup (mackup) path. -/
structure FileSt where
  home : Entry
  backup : Entry
deriving DecidableEq

/-- Per-file inputs of a run: the two entries, the answer the interactive
confirmation would return for this file, and the platform predicate's
verdict on the filename. -/
structure FileIn where
  st : FileSt
  answer : Bool
  supported : Bool
deriving DecidableEq

/-- Result of processing one file: the resulting two-path state, the event
trace, and whether a ValueError was raised (aborting the whole run). -/
structure StepOut where
  st : FileSt
  trace : List Ev
  err : Bool
deriving DecidableEq

/-- Modelled from the spec: `FileOps.delete` removes the file or directory
recursively, leaving nothing at the path. -/
def deleteEntry : Entry → Entry := fun _ => Entry.absent

/-- Modelled from the spec: `FileOps.copy src dst` materialises the source
entry at the destination (a symlink source is read through, producing a
regular file or directory tree with the same content); the source itself is
not modified.  In every reachable call the source is a file or directory. -/
def copyEntry : Entry → Entry
  | .file c => .file c
  | .dir c => .dir c
  | .linkFile c => .file c
  | .linkDir c => .dir c
  | e => e

/-- Three-way label the source assigns at the conflict point. -/
inductive FileType where
  | file
  | folder
  | link
deriving DecidableEq

/-- Embeds the classification chain of source lines 90-97 and 171-178:
`file` if isfile, else `folder` if isdir, else `link` if islink, else no
label (the source then raises ValueError). -/
def classify (e : Entry) : Option FileType :=
  if isfile e then some FileType.file
  else if isdir e then some FileType.folder
  else if islink e then some FileType.link
  else none

/-- Main condition of `backup()` (source lines 70-72): the home path is a
file or directory and the backup path is not a file and not a directory. -/
def guardB (s : FileSt) : Bool :=
  (isfile s.home || isdir s.home) && !(isfile s.backup || isdir s.backup)

/-- The per-file status line: verbose variant or terse variant. -/
def statusEv (verbose : Bool) : Ev :=
  Ev.printed (if verbose then Msg.statusVerbose else Msg.statusTerse)

/-- Main condition of `restore()` (source lines 150-155): the backup path
is a file or directory and the platform predicate allows the filename. -/
def guardR (f : FileIn) : Bool :=
  (isfile f.st.backup || isdir f.st.backup) && f.supported

/-- Embeds `ApplicationProfile.backup` for one file of the set (source
lines 66-128): main condition, status line, dry-run cut, `exists` re-check,
classification, confirmation, delete-then-copy or plain copy, and the
verbose diagnostics of the else branch (which test the home path). -/
def backupOne (dryRun verbose : Bool) (f : FileIn) : StepOut :=
  let h := f.st.home
  let b := f.st.backup
  if guardB f.st then
    let status := Ev.printed (if verbose then Msg.statusVerbose else Msg.statusTerse)
    if dryRun then
      { st := f.st, trace := [status], err := false }
    else
      if pexists b then
        match classify b with
        | none => { st := f.st, trace := [status], err := true }
        | some _ =>
          if f.answer then
            let stDel : FileSt := { home := h, backup := deleteEntry b }
            { st := { home := stDel.home, backup := copyEntry stDel.home },
              trace := [status, Ev.confirmAsked true, Ev.deleted Side.backup,
                        Ev.copied Side.home Side.backup],
              err := false }
          else
            { st := f.st, trace := [status, Ev.confirmAsked false], err := false }
      else
        { st := { home := h, backup := copyEntry h },
          trace := [status, Ev.copied Side.home Side.backup], err := false }
  else
    if verbose then
      if pexists h then
        { st := f.st, trace := [Ev.printed Msg.alreadyBackedUp], err := false }
      else if islink h then
        { st := f.st, trace := [Ev.printed Msg.brokenLinkMsg], err := false }
      else
        { st := f.st, trace := [Ev.printed Msg.doesNotExist], err := false }
    else
      { st := f.st, trace := [], err := false }

/-- Embeds `ApplicationProfile.restore` for one file of the set (source
lines 144-205): main condition (backup-side file-or-dir and platform
support), status line, dry-run cut, home-side `exists` check,
classification, confirmation, copy backup to home (no delete), and the
verbose diagnostics of the else branch (which test the home path, exactly
as in backup). -/
def restoreOne (dryRun verbose : Bool) (f : FileIn) : StepOut :=
  let h := f.st.home
  let b := f.st.backup
  if guardR f then
    let status := Ev.printed (if verbose then Msg.statusVerbose else Msg.statusTerse)
    if dryRun then
      { st := f.st, trace := [status], err := false }
    else
      if pexists h then
        match classify h with
        | none => { st := f.st, trace := [status], err := true }
        | some _ =>
          if f.answer then
            { st := { home := copyEntry b, backup := b },
              trace := [status, Ev.confirmAsked true,
                        Ev.copied Side.backup Side.home],
              err := false }
          else
            { st := f.st, trace := [status, Ev.confirmAsked false], err := false }
      else
        { st := { home := copyEntry b, backup := b },
          trace := [status, Ev.copied Side.backup Side.home], err := false }
  else
    if verbose then
      if pexists h then
        { st := f.st, trace := [Ev.printed Msg.alreadyLinked], err := false }
      else if islink h then
        { st := f.st, trace := [Ev.printed Msg.brokenLinkMsg], err := false }
      else
        { st := f.st, trace := [Ev.printed Msg.doesNotExist], err := false }
    else
      { st := f.st, trace := [], err := false }

/-- Iterates a per-file step over the file set in order.  A raised
ValueError (err) propagates uncaught: the remaining files are not
processed (source has no try around the loop body). -/
def runWith (step : FileIn → StepOut) : List FileIn → List StepOut × Bool
  | [] => ([], false)
  | f :: fs =>
    let o := step f
    if o.err then ([o], true)
    else
      let r := runWith step fs
      (o :: r.1, r.2)

/-- Embeds `ApplicationProfile.backup` over the whole file set. -/
def backup (dryRun verbose : Bool) (ins : List FileIn) : List StepOut × Bool :=
  runWith (backupOne dryRun verbose) ins

/-- Embeds `ApplicationProfile.restore` over the whole file set. -/
def restore (dryRun verbose : Bool) (ins : List FileIn) : List StepOut × Bool :=
  runWith (restoreOne dryRun verbose) ins

/-- Per-file states after a run: processed files take their step output
state, files after an aborting ValueError keep their input state. -/
def endStates (ins : List FileIn) (outs : List StepOut) : List FileSt :=
  outs.map (fun o => o.st) ++ (ins.drop outs.length).map (fun f => f.st)

/-- Builds the inputs of a second run in which every confirmation prompt is
answered no. -/
def refuse (s : FileSt) : FileIn := { st := s, answer := false, supported := true }

/-- True on copy events. -/
def isCopyEv : Ev → Bool
  | .copied _ _ => true
  | _ => false

/-- True on delete events. -/
def isDeleteEv : Ev → Bool
  | .deleted _ => true
  | _ => false

/-- True on confirmation-prompt events. -/
def isConfirmEv : Ev → Bool
  | .confirmAsked _ => true
  | _ => false

/-- True on filesystem-mutating events (copy or delete). -/
def isMutEv (e : Ev) : Bool := isCopyEv e || isDeleteEv e

/-- True on the per-file status line (verbose or terse). -/
def isStatusEv : Ev → Bool
  | .printed .statusVerbose => true
  | .printed .statusTerse => true
  | _ => false

/-- True on the copy event from the home path to the backup path. -/
def isCopyHomeBackup : Ev → Bool
  | .copied Side.home Side.backup => true
  | _ => false

/-- True on the copy event from the backup path to the home path. -/
def isCopyBackupHome : Ev → Bool
  | .copied Side.backup Side.home => true
  | _ => false

/-- True on events that delete at, or copy onto, the backup path. -/
def mutatesBackupEv : Ev → Bool
  | .deleted Side.backup => true
  | .copied _ Side.backup => true
  | _ => false

/-- Confirmation gating over a trace: scanning left to right with `ok`
recording whether some confirmation already returned true, every event
that mutates the backup path must come after such a confirmation. -/
def gatedFrom (ok : Bool) : List Ev → Bool
  | [] => true
  | Ev.confirmAsked a :: rest => gatedFrom (ok || a) rest
  | e :: rest => (!mutatesBackupEv e || ok) && gatedFrom ok rest

/-- True when the step performed no copy, no delete, and no confirmation
prompt (only printing). -/
def noMutConfirm (o : StepOut) : Bool :=
  o.trace.all fun e => !(isMutEv e || isConfirmEv e)

/-- True when the step performed no copy and no delete (prompts allowed). -/
def noCopyDelete (o : StepOut) : Bool :=
  o.trace.all fun e => !isMutEv e

/-- An entry the source's conflict chain can label: file, folder or link. -/
def clsB (e : Entry) : Bool := isfile e || isdir e || islink e

/-- Diagnostic message selected by the shared else-branch shape: `already`
when the tested path exists, broken-link when it is a broken symlink,
does-not-exist otherwise. -/
def diagOf (already : Msg) (h : Entry) : Msg :=
  if pexists h then already
  else if islink h then Msg.brokenLinkMsg
  else Msg.doesNotExist

/-- Renames backup's already-backed-up message to restore's already-linked
message, leaving every other message unchanged. -/
def renameMsg : Msg → Msg
  | Msg.alreadyBackedUp => Msg.alreadyLinked
  | m => m

/-- Lifts `renameMsg` to events. -/
def renameEv : Ev → Ev
  | Ev.printed m => Ev.printed (renameMsg m)
  | e => e

/-- Concrete input refuting C1: home holds a regular file, the backup path
holds a broken symlink (an entry classified as link). -/
def f1c : FileIn := { st := { home := Entry.file 0, backup := Entry.brokenLink },
                      answer := false, supported := true }

/-- Concrete input for the amended C1: backup path holds a symlink to a
special file, home holds a regular file, confirmation refused. -/
def f1w : FileIn := { st := { home := Entry.file 0, backup := Entry.linkSpecial },
                      answer := false, supported := true }

/-- Concrete input refuting C4: broken symlink on the backup side. -/
def f4c : FileIn := { st := { home := Entry.file 1, backup := Entry.brokenLink },
                      answer := true, supported := true }

/-- Concrete input for the amended C4 witness. -/
def f4w : FileIn := { st := { home := Entry.file 2, backup := Entry.linkSpecial },
                      answer := true, supported := true }

/-- Concrete input refuting C5: home holds a file, the backup path holds
nothing, so restore's main condition fails. -/
def f5c : FileIn := { st := { home := Entry.file 3, backup := Entry.absent },
                      answer := false, supported := true }

/-- Concrete input for the amended C5 witness: both main conditions fail
(platform predicate vetoes the file, backup side is a file). -/
def f5w : FileIn := { st := { home := Entry.file 4, backup := Entry.file 4 },
                      answer := false, supported := false }

/-- Concrete input for the C3 witness: fresh home file, empty backup. -/
def f3w : FileIn := { st := { home := Entry.file 6, backup := Entry.absent },
                      answer := false, supported := true }

/-- Concrete input for the C6 witness: backup-side directory, absent home,
platform-supported. -/
def f6w : FileIn := { st := { home := Entry.absent, backup := Entry.dir 5 },
                      answer := false, supported := true }

/-- Concrete input for the C7 witness, backup part: named pipe on the
backup side, fresh home file. -/
def f7b : FileIn := { st := { home := Entry.file 7, backup := Entry.special },
                      answer := true, supported := true }

/-- Concrete input for the C7 witness, restore part: named pipe on the home
side, regular file on the backup side. -/
def f7r : FileIn := { st := { home := Entry.special, backup := Entry.file 8 },
                      answer := true, supported := true }

/-- Concrete input refuting C9: confirmed replacement of a backup-side
symlink performs a delete and then a copy, two mutating actions. -/
def f9c : FileIn := { st := { home := Entry.file 9, backup := Entry.linkSpecial },
                      answer := true, supported := true }

/-- Concrete input showing backup does delete (contrast for C10). -/
def fReplace : FileIn := { st := { home := Entry.file 10, backup := Entry.linkSpecial },
                           answer := true, supported := true }

/-- A run whose step never raises processes every file and is the map of
the step over the inputs. -/
lemma runWith_eq_map (step : FileIn → StepOut) (hstep : ∀ f, (step f).err = false) :
    ∀ ins : List FileIn, runWith step ins = (ins.map step, false) := by
  intro ins
  induction ins with
  | nil => rfl
  | cons f fs ih => simp [runWith, hstep f, ih]

/-- Every output of a run satisfies any property that every step output
satisfies. -/
lemma runWith_all (step : FileIn → StepOut) (P : StepOut → Bool)
    (hstep : ∀ f, P (step f) = true) :
    ∀ ins : List FileIn, (runWith step ins).1.all P = true := by
  intro ins
  induction ins with
  | nil => rfl
  | cons f fs ih =>
    by_cases he : (step f).err = true
    · simp [runWith, he, hstep f]
    · simp only [Bool.not_eq_true] at he
      simp [runWith, he, hstep f, ih]

/-- End states of a cons run decompose into head state and tail states. -/
lemma endStates_cons (f : FileIn) (fs : List FileIn) (o : StepOut) (outs : List StepOut) :
    endStates (f :: fs) (o :: outs) = o.st :: endStates fs outs := by
  simp [endStates]

/-- A printed message is not a copy event. -/
lemma isCopyEv_printed (m : Msg) : isCopyEv (Ev.printed m) = false := rfl

/-- A printed message is not a delete event. -/
lemma isDeleteEv_printed (m : Msg) : isDeleteEv (Ev.printed m) = false := rfl

/-- A printed message is not a confirmation event. -/
lemma isConfirmEv_printed (m : Msg) : isConfirmEv (Ev.printed m) = false := rfl

/-- A printed message mutates nothing. -/
lemma isMutEv_printed (m : Msg) : isMutEv (Ev.printed m) = false := rfl

/-- A printed message mutates nothing at the backup path. -/
lemma mutatesBackupEv_printed (m : Msg) : mutatesBackupEv (Ev.printed m) = false := rfl

/-- A printed message is not the home-to-backup copy. -/
lemma isCopyHomeBackup_printed (m : Msg) : isCopyHomeBackup (Ev.printed m) = false := rfl

/-- A printed message is not the backup-to-home copy. -/
lemma isCopyBackupHome_printed (m : Msg) : isCopyBackupHome (Ev.printed m) = false := rfl

/-- The status line is a status event, whether verbose or terse. -/
lemma isStatusEv_statusEv (v : Bool) : isStatusEv (statusEv v) = true := by
  cases v <;> rfl

/-- The status line is not a copy event. -/
lemma isCopyEv_statusEv (v : Bool) : isCopyEv (statusEv v) = false := by
  cases v <;> rfl

/-- The status line is not a delete event. -/
lemma isDeleteEv_statusEv (v : Bool) : isDeleteEv (statusEv v) = false := by
  cases v <;> rfl

/-- The status line is not a confirmation event. -/
lemma isConfirmEv_statusEv (v : Bool) : isConfirmEv (statusEv v) = false := by
  cases v <;> rfl

/-- The status line mutates nothing. -/
lemma isMutEv_statusEv (v : Bool) : isMutEv (statusEv v) = false := by
  cases v <;> rfl

/-- The status line mutates nothing at the backup path. -/
lemma mutatesBackupEv_statusEv (v : Bool) : mutatesBackupEv (statusEv v) = false := by
  cases v <;> rfl

/-- The status line is not the home-to-backup copy. -/
lemma isCopyHomeBackup_statusEv (v : Bool) : isCopyHomeBackup (statusEv v) = false := by
  cases v <;> rfl

/-- The status line is not the backup-to-home copy. -/
lemma isCopyBackupHome_statusEv (v : Bool) : isCopyBackupHome (statusEv v) = false := by
  cases v <;> rfl

/-- A diagnostic built by `diagOf` from one of the two already-messages is
never a status event. -/
lemma isStatusEv_diagOf_alreadyBackedUp (h : Entry) :
    isStatusEv (Ev.printed (diagOf Msg.alreadyBackedUp h)) = false := by
  by_cases h1 : pexists h = true <;> by_cases h2 : islink h = true <;>
    simp [diagOf, h1, h2, isStatusEv]

/-- Restore-side variant of the previous lemma. -/
lemma isStatusEv_diagOf_alreadyLinked (h : Entry) :
    isStatusEv (Ev.printed (diagOf Msg.alreadyLinked h)) = false := by
  by_cases h1 : pexists h = true <;> by_cases h2 : islink h = true <;>
    simp [diagOf, h1, h2, isStatusEv]

/-- Branch characterisation: when backup's main condition fails, the step
changes nothing, raises nothing, and prints (in verbose mode) exactly the
home-path diagnostic. -/
lemma backupOne_skip (dv v : Bool) (f : FileIn) (hg : guardB f.st = false) :
    backupOne dv v f =
      { st := f.st,
        trace := if v then [Ev.printed (diagOf Msg.alreadyBackedUp f.st.home)] else [],
        err := false } := by
  by_cases h1 : pexists f.st.home = true <;> by_cases h2 : islink f.st.home = true <;>
    cases v <;> simp [backupOne, hg, diagOf, h1, h2]

/-- Branch characterisation: dry-run backup with the main condition true
prints the status line and stops. -/
lemma backupOne_dry (v : Bool) (f : FileIn) (hg : guardB f.st = true) :
    backupOne true v f = { st := f.st, trace := [statusEv v], err := false } := by
  simp [backupOne, hg, statusEv]

/-- Branch characterisation: main condition true, backup-path entry with an
existing target but no classification label: ValueError after the status
line. -/
lemma backupOne_raise (v : Bool) (f : FileIn) (hg : guardB f.st = true)
    (hex : pexists f.st.backup = true) (hc : classify f.st.backup = none) :
    backupOne false v f = { st := f.st, trace := [statusEv v], err := true } := by
  simp [backupOne, hg, hex, hc, statusEv]

/-- Branch characterisation: confirmed replacement deletes the backup
entry and copies home over it. -/
lemma backupOne_confirm_yes (v : Bool) (f : FileIn) (t : FileType)
    (hg : guardB f.st = true) (hex : pexists f.st.backup = true)
    (hc : classify f.st.backup = some t) (ha : f.answer = true) :
    backupOne false v f =
      { st := { home := f.st.home, backup := copyEntry f.st.home },
        trace := [statusEv v, Ev.confirmAsked true, Ev.deleted Side.backup,
                  Ev.copied Side.home Side.backup],
        err := false } := by
  simp [backupOne, hg, hex, hc, ha, statusEv, deleteEntry]

/-- Branch characterisation: refused replacement changes nothing after the
prompt. -/
lemma backupOne_confirm_no (v : Bool) (f : FileIn) (t : FileType)
    (hg : guardB f.st = true) (hex : pexists f.st.backup = true)
    (hc : classify f.st.backup = some t) (ha : f.answer = false) :
    backupOne false v f =
      { st := f.st, trace := [statusEv v, Ev.confirmAsked false], err := false } := by
  simp [backupOne, hg, hex, hc, ha, statusEv]

/-- Branch characterisation: no entry the `exists` re-check can see at the
backup path, so home is copied there unconditionally. -/
lemma backupOne_plain_copy (v : Bool) (f : FileIn) (hg : guardB f.st = true)
    (hex : pexists f.st.backup = false) :
    backupOne false v f =
      { st := { home := f.st.home, backup := copyEntry f.st.home },
        trace := [statusEv v, Ev.copied Side.home Side.backup], err := false } := by
  simp [backupOne, hg, hex, statusEv]

/-- Branch characterisation: when restore's main condition fails, the step
changes nothing and prints (in verbose mode) exactly the home-path
diagnostic. -/
lemma restoreOne_skip (dv v : Bool) (f : FileIn) (hg : guardR f = false) :
    restoreOne dv v f =
      { st := f.st,
        trace := if v then [Ev.printed (diagOf Msg.alreadyLinked f.st.home)] else [],
        err := false } := by
  by_cases h1 : pexists f.st.home = true <;> by_cases h2 : islink f.st.home = true <;>
    cases v <;> simp [restoreOne, hg, diagOf, h1, h2]

/-- Branch characterisation: dry-run restore with the main condition true
prints the status line and stops. -/
lemma restoreOne_dry (v : Bool) (f : FileIn) (hg : guardR f = true) :
    restoreOne true v f = { st := f.st, trace := [statusEv v], err := false } := by
  simp [restoreOne, hg, statusEv]

/-- Branch characterisation: home-path entry with an existing target but no
classification label: ValueError after the status line. -/
lemma restoreOne_raise (v : Bool) (f : FileIn) (hg : guardR f = true)
    (hex : pexists f.st.home = true) (hc : classify f.st.home = none) :
    restoreOne false v f = { st := f.st, trace := [statusEv v], err := true } := by
  simp [restoreOne, hg, hex, hc, statusEv]

/-- Branch characterisation: confirmed restore copies backup over the
existing home entry, deleting nothing. -/
lemma restoreOne_confirm_yes (v : Bool) (f : FileIn) (t : FileType)
    (hg : guardR f = true) (hex : pexists f.st.home = true)
    (hc : classify f.st.home = some t) (ha : f.answer = true) :
    restoreOne false v f =
      { st := { home := copyEntry f.st.backup, backup := f.st.backup },
        trace := [statusEv v, Ev.confirmAsked true, Ev.copied Side.backup Side.home],
        err := false } := by
  simp [restoreOne, hg, hex, hc, ha, statusEv]

/-- Branch characterisation: refused restore changes nothing after the
prompt. -/
lemma restoreOne_confirm_no (v : Bool) (f : FileIn) (t : FileType)
    (hg : guardR f = true) (hex : pexists f.st.home = true)
    (hc : classify f.st.home = some t) (ha : f.answer = false) :
    restoreOne false v f =
      { st := f.st, trace := [statusEv v, Ev.confirmAsked false], err := false } := by
  simp [restoreOne, hg, hex, hc, ha, statusEv]

/-- Branch characterisation: nothing at the home path, so backup is copied
there unconditionally. -/
lemma restoreOne_plain_copy (v : Bool) (f : FileIn) (hg : guardR f = true)
    (hex : pexists f.st.home = false) :
    restoreOne false v f =
      { st := { home := copyEntry f.st.backup, backup := f.st.backup },
        trace := [statusEv v, Ev.copied Side.backup Side.home], err := false } := by
  simp [restoreOne, hg, hex, statusEv]

/-- Exhaustive branch split for a non-dry backup step: every step output is
one of the five non-dry shapes. -/
lemma backupOne_branches (f : FileIn) :
    guardB f.st = false
    ∨ (guardB f.st = true ∧ pexists f.st.backup = true ∧ classify f.st.backup = none)
    ∨ (guardB f.st = true ∧ pexists f.st.backup = true
        ∧ ∃ t, classify f.st.backup = some t)
    ∨ (guardB f.st = true ∧ pexists f.st.backup = false) := by
  by_cases hg : guardB f.st = true
  · by_cases hex : pexists f.st.backup = true
    · cases hc : classify f.st.backup with
      | none => exact Or.inr (Or.inl ⟨hg, hex, rfl⟩)
      | some t => exact Or.inr (Or.inr (Or.inl ⟨hg, hex, ⟨t, rfl⟩⟩))
    · exact Or.inr (Or.inr (Or.inr ⟨hg, by simpa using hex⟩))
  · exact Or.inl (by simpa using hg)

/-- Exhaustive branch split for a non-dry restore step. -/
lemma restoreOne_branches (f : FileIn) :
    guardR f = false
    ∨ (guardR f = true ∧ pexists f.st.home = true ∧ classify f.st.home = none)
    ∨ (guardR f = true ∧ pexists f.st.home = true
        ∧ ∃ t, classify f.st.home = some t)
    ∨ (guardR f = true ∧ pexists f.st.home = false) := by
  by_cases hg : guardR f = true
  · by_cases hex : pexists f.st.home = true
    · cases hc : classify f.st.home with
      | none => exact Or.inr (Or.inl ⟨hg, hex, rfl⟩)
      | some t => exact Or.inr (Or.inr (Or.inl ⟨hg, hex, ⟨t, rfl⟩⟩))
    · exact Or.inr (Or.inr (Or.inr ⟨hg, by simpa using hex⟩))
  · exact Or.inl (by simpa using hg)

/-- Per-file counting facts for one backup step: at most one copy, at most
one delete, and exactly one status line when the main condition holds. -/
lemma backupOne_counts (dv v : Bool) (f : FileIn) :
    (backupOne dv v f).trace.countP isCopyEv ≤ 1
    ∧ (backupOne dv v f).trace.countP isDeleteEv ≤ 1
    ∧ (!guardB f.st || ((backupOne dv v f).trace.countP isStatusEv == 1)) = true := by
  rcases backupOne_branches f with hg | ⟨hg, hex, hc⟩ | ⟨hg, hex, t, hc⟩ | ⟨hg, hex⟩
  · rw [backupOne_skip dv v f hg]
    simp only [hg, Bool.not_false, Bool.true_or]
    cases v <;>
      simp [List.countP_cons, List.countP_nil, isCopyEv_printed, isDeleteEv_printed]
  · cases dv
    · rw [backupOne_raise v f hg hex hc]
      simp only [hg, Bool.not_true, Bool.false_or]
      cases v <;> decide
    · rw [backupOne_dry v f hg]
      simp only [hg, Bool.not_true, Bool.false_or]
      cases v <;> decide
  · cases dv
    · cases ha : f.answer
      · rw [backupOne_confirm_no v f t hg hex hc ha]
        simp only [hg, Bool.not_true, Bool.false_or]
        cases v <;> decide
      · rw [backupOne_confirm_yes v f t hg hex hc ha]
        simp only [hg, Bool.not_true, Bool.false_or]
        cases v <;> decide
    · rw [backupOne_dry v f hg]
      simp only [hg, Bool.not_true, Bool.false_or]
      cases v <;> decide
  · cases dv
    · rw [backupOne_plain_copy v f hg hex]
      simp only [hg, Bool.not_true, Bool.false_or]
      cases v <;> decide
    · rw [backupOne_dry v f hg]
      simp only [hg, Bool.not_true, Bool.false_or]
      cases v <;> decide

/-- Per-file counting facts for one restore step: at most one copy, zero
deletes, and exactly one status line when the main condition holds. -/
lemma restoreOne_counts (dv v : Bool) (f : FileIn) :
    (restoreOne dv v f).trace.countP isCopyEv ≤ 1
    ∧ (restoreOne dv v f).trace.countP isDeleteEv = 0
    ∧ (!guardR f || ((restoreOne dv v f).trace.countP isStatusEv == 1)) = true := by
  rcases restoreOne_branches f with hg | ⟨hg, hex, hc⟩ | ⟨hg, hex, t, hc⟩ | ⟨hg, hex⟩
  · rw [restoreOne_skip dv v f hg]
    simp only [hg, Bool.not_false, Bool.true_or]
    cases v <;>
      simp [List.countP_cons, List.countP_nil, isCopyEv_printed, isDeleteEv_printed]
  · cases dv
    · rw [restoreOne_raise v f hg hex hc]
      simp only [hg, Bool.not_true, Bool.false_or]
      cases v <;> decide
    · rw [restoreOne_dry v f hg]
      simp only [hg, Bool.not_true, Bool.false_or]
      cases v <;> decide
  · cases dv
    · cases ha : f.answer
      · rw [restoreOne_confirm_no v f t hg hex hc ha]
        simp only [hg, Bool.not_true, Bool.false_or]
        cases v <;> decide
      · rw [restoreOne_confirm_yes v f t hg hex hc ha]
        simp only [hg, Bool.not_true, Bool.false_or]
        cases v <;> decide
    · rw [restoreOne_dry v f hg]
      simp only [hg, Bool.not_true, Bool.false_or]
      cases v <;> decide
  · cases dv
    · rw [restoreOne_plain_copy v f hg hex]
      simp only [hg, Bool.not_true, Bool.false_or]
      cases v <;> decide
    · rw [restoreOne_dry v f hg]
      simp only [hg, Bool.not_true, Bool.false_or]
      cases v <;> decide


/-- A restore step never emits a delete event, in any mode. -/
lemma restoreOne_no_delete (dv v : Bool) (f : FileIn) :
    (restoreOne dv v f).trace.all (fun e => !isDeleteEv e) = true := by
  rcases restoreOne_branches f with hg | ⟨hg, hex, hc⟩ | ⟨hg, hex, t, hc⟩ | ⟨hg, hex⟩
  · rw [restoreOne_skip dv v f hg]
    cases v <;> simp [isDeleteEv_printed]
  · cases dv
    · rw [restoreOne_raise v f hg hex hc]
      cases v <;> simp [statusEv, isDeleteEv]
    · rw [restoreOne_dry v f hg]
      cases v <;> simp [statusEv, isDeleteEv]
  · cases dv
    · cases ha : f.answer
      · rw [restoreOne_confirm_no v f t hg hex hc ha]
        cases v <;> simp [statusEv, isDeleteEv]
      · rw [restoreOne_confirm_yes v f t hg hex hc ha]
        cases v <;> simp [statusEv, isDeleteEv]
    · rw [restoreOne_dry v f hg]
      cases v <;> simp [statusEv, isDeleteEv]
  · cases dv
    · rw [restoreOne_plain_copy v f hg hex]
      cases v <;> simp [statusEv, isDeleteEv]
    · rw [restoreOne_dry v f hg]
      cases v <;> simp [statusEv, isDeleteEv]

/-- Entries with no directory entry at all are exactly `absent`. -/
lemma entryExists_false_iff (e : Entry) : entryExists e = false ↔ e = Entry.absent := by
  cases e <;> simp [entryExists]

/-- Copying a file-or-directory source produces a file-or-directory. -/
lemma copyEntry_filedir (h : Entry) (hh : (isfile h || isdir h) = true) :
    (isfile (copyEntry h) || isdir (copyEntry h)) = true := by
  cases h <;> simp_all [isfile, isdir, copyEntry]

/-- A dry-run backup step raises nothing, changes nothing, and performs no
copy, delete or confirmation. -/
lemma backupOne_dry_facts (v : Bool) (f : FileIn) :
    (backupOne true v f).err = false
    ∧ (backupOne true v f).st = f.st
    ∧ noMutConfirm (backupOne true v f) = true := by
  by_cases hg : guardB f.st = true
  · rw [backupOne_dry v f hg]
    refine ⟨rfl, rfl, ?_⟩
    cases v <;> simp [noMutConfirm, statusEv, isMutEv, isCopyEv, isDeleteEv, isConfirmEv]
  · rw [backupOne_skip true v f (by simpa using hg)]
    refine ⟨rfl, rfl, ?_⟩
    cases v <;>
      simp [noMutConfirm, isMutEv, isCopyEv_printed, isDeleteEv_printed, isConfirmEv_printed]

/-- A dry-run restore step raises nothing, changes nothing, and performs no
copy, delete or confirmation. -/
lemma restoreOne_dry_facts (v : Bool) (f : FileIn) :
    (restoreOne true v f).err = false
    ∧ (restoreOne true v f).st = f.st
    ∧ noMutConfirm (restoreOne true v f) = true := by
  by_cases hg : guardR f = true
  · rw [restoreOne_dry v f hg]
    refine ⟨rfl, rfl, ?_⟩
    cases v <;> simp [noMutConfirm, statusEv, isMutEv, isCopyEv, isDeleteEv, isConfirmEv]
  · rw [restoreOne_skip true v f (by simpa using hg)]
    refine ⟨rfl, rfl, ?_⟩
    cases v <;>
      simp [noMutConfirm, isMutEv, isCopyEv_printed, isDeleteEv_printed, isConfirmEv_printed]

/-- Running a backup step a second time on its own output state, with the
confirmation prompt refused, keeps the state and the error verdict and
performs no copy and no delete. -/
lemma backupOne_second (v : Bool) (f : FileIn) :
    (backupOne false v (refuse (backupOne false v f).st)).st = (backupOne false v f).st
    ∧ (backupOne false v (refuse (backupOne false v f).st)).err = (backupOne false v f).err
    ∧ noCopyDelete (backupOne false v (refuse (backupOne false v f).st)) = true := by
  rcases backupOne_branches f with hg | ⟨hg, hex, hc⟩ | ⟨hg, hex, t, hc⟩ | ⟨hg, hex⟩
  · rw [backupOne_skip false v f hg]
    dsimp only
    rw [backupOne_skip false v (refuse f.st) hg]
    refine ⟨rfl, rfl, ?_⟩
    cases v <;>
      simp [noCopyDelete, isMutEv, isCopyEv_printed, isDeleteEv_printed]
  · rw [backupOne_raise v f hg hex hc]
    dsimp only
    rw [backupOne_raise v (refuse f.st) hg hex hc]
    refine ⟨rfl, rfl, ?_⟩
    cases v <;> simp [noCopyDelete, statusEv, isMutEv, isCopyEv, isDeleteEv]
  · cases ha : f.answer
    · rw [backupOne_confirm_no v f t hg hex hc ha]
      dsimp only
      rw [backupOne_confirm_no v (refuse f.st) t hg hex hc rfl]
      refine ⟨rfl, rfl, ?_⟩
      cases v <;> simp [noCopyDelete, statusEv, isMutEv, isCopyEv, isDeleteEv]
    · rw [backupOne_confirm_yes v f t hg hex hc ha]
      dsimp only
      have hh : (isfile f.st.home || isdir f.st.home) = true := by
        have h2 := hg
        simp only [guardB, Bool.and_eq_true] at h2
        exact h2.1
      have hg2 : guardB { home := f.st.home, backup := copyEntry f.st.home } = false := by
        simp only [guardB]
        rw [copyEntry_filedir _ hh]
        simp
      rw [backupOne_skip false v
        (refuse { home := f.st.home, backup := copyEntry f.st.home }) hg2]
      refine ⟨rfl, rfl, ?_⟩
      cases v <;>
        simp [noCopyDelete, isMutEv, isCopyEv_printed, isDeleteEv_printed]
  · rw [backupOne_plain_copy v f hg hex]
    dsimp only
    have hh : (isfile f.st.home || isdir f.st.home) = true := by
      have h2 := hg
      simp only [guardB, Bool.and_eq_true] at h2
      exact h2.1
    have hg2 : guardB { home := f.st.home, backup := copyEntry f.st.home } = false := by
      simp only [guardB]
      rw [copyEntry_filedir _ hh]
      simp
    rw [backupOne_skip false v
      (refuse { home := f.st.home, backup := copyEntry f.st.home }) hg2]
    refine ⟨rfl, rfl, ?_⟩
    cases v <;>
      simp [noCopyDelete, isMutEv, isCopyEv_printed, isDeleteEv_printed]

/-- C1, counterexample.  The claim fails on the code: with a broken symlink
at the backup path (an entry `os.path.islink` reports, hence of the "link"
kind) and a fresh regular file at the home path, a non-dry-run backup()
performs a copy at the backup path while never calling the confirmation
collaborator: `os.path.exists` is false on a broken symlink, so the source
takes the unconditional-copy branch. -/
theorem c1_gating_counterexample :
    islink f1c.st.backup = true
    ∧ entryExists f1c.st.backup = true
    ∧ isfile f1c.st.home = true
    ∧ (backupOne false false f1c).trace.countP isConfirmEv = 0
    ∧ (backupOne false false f1c).trace.countP isMutEv = 1
    ∧ Ev.copied Side.home Side.backup ∈ (backupOne false false f1c).trace := by
  decide

/-- C1, amended.  For every file whose backup path holds an entry the
conflict chain can classify (file, folder or link) whose target exists
(so excluding broken symlinks), with a fresh regular file or directory at
the home path, a non-dry-run backup() performs any delete or copy at the
backup path only after the confirmation collaborator returned true; no
error is raised, and if confirmation is refused the file's state is left
unchanged (iteration continues with the next file). -/
theorem c1_gating_amended (v : Bool) (f : FileIn)
    (hcls : clsB f.st.backup = true)
    (hex : pexists f.st.backup = true)
    (hh : (isfile f.st.home || isdir f.st.home) = true) :
    gatedFrom false (backupOne false v f).trace = true
    ∧ (backupOne false v f).err = false
    ∧ (f.answer = false → (backupOne false v f).st = f.st) := by
  obtain ⟨⟨h, b⟩, ans, sup⟩ := f
  cases h <;> cases b <;> cases ans <;> cases v <;>
    simp_all [backupOne, guardB, clsB, isfile, isdir, islink, pexists, classify,
      copyEntry, deleteEntry, gatedFrom, mutatesBackupEv]

/-- C1, witness for the amended theorem at a concrete input: a symlink to a
special file at the backup path, a regular file at home, refused prompt. -/
theorem c1_gating_amended_witness :
    clsB f1w.st.backup = true
    ∧ pexists f1w.st.backup = true
    ∧ (isfile f1w.st.home || isdir f1w.st.home) = true
    ∧ gatedFrom false (backupOne false true f1w).trace = true
    ∧ (backupOne false true f1w).err = false
    ∧ (backupOne false true f1w).st = f1w.st := by
  refine ⟨by decide, by decide, by decide, ?_, ?_, ?_⟩
  · exact (c1_gating_amended true f1w (by decide) (by decide) (by decide)).1
  · exact (c1_gating_amended true f1w (by decide) (by decide) (by decide)).2.1
  · exact (c1_gating_amended true f1w (by decide) (by decide) (by decide)).2.2 rfl

/-- C4, counterexample.  The never-silent-overwrite claim fails on the
code for a broken backup-side symlink: an entry exists at the backup path,
yet backup() copies onto it with no confirmation event at all, because
`os.path.exists` follows symlinks and reports false. -/
theorem c4_overwrite_counterexample :
    entryExists f4c.st.backup = true
    ∧ islink f4c.st.backup = true
    ∧ gatedFrom false (backupOne false false f4c).trace = false
    ∧ (backupOne false false f4c).trace.any mutatesBackupEv = true
    ∧ (backupOne false false f4c).trace.all (fun e => !isConfirmEv e) = true := by
  decide

/-- C4, amended.  Whenever the entry at the backup path has an existing
target (a regular file, a directory, or a symlink whose target exists —
everything `os.path.exists` reports), backup() performs a delete or copy at
the backup path only after the confirmation collaborator returned true; a
broken backup-side symlink escapes this gating and is overwritten by the
copy without any prompt. -/
theorem c4_overwrite_gating_amended (dv v : Bool) (f : FileIn)
    (hex : pexists f.st.backup = true) :
    gatedFrom false (backupOne dv v f).trace = true := by
  obtain ⟨⟨h, b⟩, ans, sup⟩ := f
  cases h <;> cases b <;> cases ans <;> cases v <;> cases dv <;>
    simp_all [backupOne, guardB, isfile, isdir, islink, pexists, classify,
      copyEntry, deleteEntry, gatedFrom, mutatesBackupEv]

/-- C4, witness for the amended theorem at a concrete input. -/
theorem c4_overwrite_gating_amended_witness :
    pexists f4w.st.backup = true
    ∧ gatedFrom false (backupOne false false f4w).trace = true :=
  ⟨by decide, c4_overwrite_gating_amended false false f4w (by decide)⟩

/-- C5, counterexample.  The claim fails on the code: with the home path
holding a regular file and nothing at all at the backup path, restore()'s
verbose else branch emits the already-linked diagnostic, although the
backup-side path neither exists nor is a broken symlink (the claim would
require the does-not-exist diagnostic).  The source tests the home path in
this branch, the same path backup() tests, not the swapped one. -/
theorem c5_diag_counterexample :
    pexists f5c.st.backup = false
    ∧ islink f5c.st.backup = false
    ∧ (restoreOne false true f5c).trace = [Ev.printed Msg.alreadyLinked]
    ∧ Ev.printed Msg.doesNotExist ∉ (restoreOne false true f5c).trace := by
  decide

/-- Renaming backup's else-branch diagnostic yields restore's else-branch
diagnostic for the same tested entry. -/
lemma renameEv_diag (h : Entry) :
    renameEv (Ev.printed (diagOf Msg.alreadyBackedUp h))
      = Ev.printed (diagOf Msg.alreadyLinked h) := by
  by_cases h1 : pexists h = true <;> by_cases h2 : islink h = true <;>
    simp [diagOf, h1, h2, renameEv, renameMsg]

/-- C5, amended.  When restore()'s main condition fails for a file and
verbosity is on, the diagnostic emitted follows backup()'s else-branch
structure with the same home-path exists-check (roles not swapped):
already-linked when the home path exists, broken-link when the home path
is a broken symlink, does-not-exist otherwise; and whenever backup()'s
main condition also fails for that file, the whole trace equals backup()'s
else-branch trace up to renaming already-backed-up to already-linked. -/
theorem c5_diag_amended (dv : Bool) (f : FileIn) (hr : guardR f = false) :
    (restoreOne dv true f).trace = [Ev.printed (diagOf Msg.alreadyLinked f.st.home)]
    ∧ (guardB f.st = false →
        (restoreOne dv true f).trace = (backupOne dv true f).trace.map renameEv) := by
  rw [restoreOne_skip dv true f hr]
  constructor
  · rfl
  · intro hb
    rw [backupOne_skip dv true f hb]
    simp [renameEv_diag]

/-- C5, witness for the amended theorem at a concrete input where restore's
main condition fails; the input also fails backup's main condition, so the
mirror clause is exercised too. -/
theorem c5_diag_amended_witness :
    guardR f5w = false
    ∧ (restoreOne false true f5w).trace
        = [Ev.printed (diagOf Msg.alreadyLinked f5w.st.home)]
    ∧ guardB f5w.st = false
    ∧ (restoreOne false true f5w).trace = (backupOne false true f5w).trace.map renameEv := by
  refine ⟨by decide, ?_, by decide, ?_⟩
  · exact (c5_diag_amended false f5w (by decide)).1
  · exact (c5_diag_amended false f5w (by decide)).2 (by decide)

/-- C9, counterexample.  The per-file action bound fails on the code: on a
confirmed replacement (symlink-to-special-file at the backup path, fresh
home file, confirmation answered yes) a single invocation of backup()
performs two mutating actions for that one file, a delete followed by a
copy, not at most one. -/
theorem c9_action_bound_counterexample :
    (backup false false [f9c]).1.map (fun o => o.trace.countP isMutEv) = [2]
    ∧ ¬(backupOne false false f9c).trace.countP isMutEv ≤ 1 := by
  decide

/-- C9, amended.  In a single invocation of backup() or restore(), each
file gets at most one copy action and at most one delete action (the
delete arising only in backup's confirmed-replacement path, immediately
before its copy); restore never deletes; and exactly one human-readable
status line is emitted per file that satisfies the operation's main
condition. -/
theorem c9_action_bound_amended (dv v : Bool) (f : FileIn) :
    (backupOne dv v f).trace.countP isCopyEv ≤ 1
    ∧ (backupOne dv v f).trace.countP isDeleteEv ≤ 1
    ∧ (restoreOne dv v f).trace.countP isCopyEv ≤ 1
    ∧ (restoreOne dv v f).trace.countP isDeleteEv = 0
    ∧ (!guardB f.st || ((backupOne dv v f).trace.countP isStatusEv == 1)) = true
    ∧ (!guardR f || ((restoreOne dv v f).trace.countP isStatusEv == 1)) = true := by
  obtain ⟨h1, h2, h3⟩ := backupOne_counts dv v f
  obtain ⟨h4, h5, h6⟩ := restoreOne_counts dv v f
  exact ⟨h1, h2, h4, h5, h3, h6⟩

/-- C3, theorem.  For a file whose home path is an existing file or
directory while no entry of any kind is at the backup path, a non-dry-run
backup() performs exactly one copy, from home to backup, never deletes,
never prompts, raises no error, and leaves the home entry unchanged
(copied, not moved). -/
theorem c3_fresh_backup_copies_once (v : Bool) (f : FileIn)
    (hh : (isfile f.st.home || isdir f.st.home) = true)
    (hb : entryExists f.st.backup = false) :
    (backupOne false v f).trace.countP isCopyHomeBackup = 1
    ∧ (backupOne false v f).trace.countP isCopyEv = 1
    ∧ (backupOne false v f).trace.countP isDeleteEv = 0
    ∧ (backupOne false v f).trace.countP isConfirmEv = 0
    ∧ (backupOne false v f).st.home = f.st.home
    ∧ (backupOne false v f).st.backup = copyEntry f.st.home
    ∧ (backupOne false v f).err = false := by
  have hb' : f.st.backup = Entry.absent := (entryExists_false_iff _).mp hb
  have hg : guardB f.st = true := by
    show ((isfile f.st.home || isdir f.st.home)
      && !(isfile f.st.backup || isdir f.st.backup)) = true
    rw [hh, hb']
    decide
  have hex : pexists f.st.backup = false := by simp [hb', pexists]
  rw [backupOne_plain_copy v f hg hex]
  refine ⟨?_, ?_, ?_, ?_, rfl, rfl, rfl⟩ <;> cases v <;>
    simp [List.countP_cons, List.countP_nil, statusEv, isCopyHomeBackup,
      isCopyEv, isDeleteEv, isConfirmEv]

/-- C3, witness at a concrete input: a fresh home file and an empty backup
path. -/
theorem c3_fresh_backup_copies_once_witness :
    (isfile f3w.st.home || isdir f3w.st.home) = true
    ∧ entryExists f3w.st.backup = false
    ∧ (backupOne false false f3w).trace.countP isCopyHomeBackup = 1
    ∧ (backupOne false false f3w).trace.countP isDeleteEv = 0
    ∧ (backupOne false false f3w).trace.countP isConfirmEv = 0
    ∧ (backupOne false false f3w).st.home = f3w.st.home := by
  refine ⟨by decide, by decide, ?_, ?_, ?_, ?_⟩
  · exact (c3_fresh_backup_copies_once false f3w (by decide) (by decide)).1
  · exact (c3_fresh_backup_copies_once false f3w (by decide) (by decide)).2.2.1
  · exact (c3_fresh_backup_copies_once false f3w (by decide) (by decide)).2.2.2.1
  · exact (c3_fresh_backup_copies_once false f3w (by decide) (by decide)).2.2.2.2.1

/-- C6, theorem.  restore() mutates a file's state only when its main
condition holds (the backup path is a file or directory, following
symlinks, and the platform predicate allows the filename); and in the
no-conflict scenario (backup-side directory, platform-supported, nothing
at the home path) a non-dry-run restore() performs exactly one copy, from
backup to home, with no delete and no confirmation prompt, materialising
the backup directory at the home path and leaving the backup entry
unchanged. -/
theorem c6_restore_guard_and_copy (dv v : Bool) (f : FileIn) :
    ((restoreOne dv v f).trace.any isMutEv = true → guardR f = true)
    ∧ (isdir f.st.backup = true → f.st.home = Entry.absent → f.supported = true →
        (restoreOne false v f).trace.countP isCopyBackupHome = 1
        ∧ (restoreOne false v f).trace.countP isCopyEv = 1
        ∧ (restoreOne false v f).trace.countP isDeleteEv = 0
        ∧ (restoreOne false v f).trace.countP isConfirmEv = 0
        ∧ (restoreOne false v f).st.home = copyEntry f.st.backup
        ∧ (restoreOne false v f).st.backup = f.st.backup
        ∧ (restoreOne false v f).err = false) := by
  constructor
  · intro hmut
    by_cases hg : guardR f = true
    · exact hg
    · rw [restoreOne_skip dv v f (by simpa using hg)] at hmut
      revert hmut
      cases v <;> simp [isMutEv_printed]
  · intro hd hh hs
    have hg : guardR f = true := by
      show ((isfile f.st.backup || isdir f.st.backup) && f.supported) = true
      rw [hd, hs]
      simp
    have hex : pexists f.st.home = false := by simp [hh, pexists]
    rw [restoreOne_plain_copy v f hg hex]
    refine ⟨?_, ?_, ?_, ?_, rfl, rfl, rfl⟩ <;> cases v <;>
      simp [List.countP_cons, List.countP_nil, statusEv, isCopyBackupHome,
        isCopyEv, isDeleteEv, isConfirmEv]

/-- C6, witness at a concrete input: backup-side directory, absent home,
platform-supported. -/
theorem c6_restore_guard_and_copy_witness :
    isdir f6w.st.backup = true
    ∧ f6w.st.home = Entry.absent
    ∧ f6w.supported = true
    ∧ (restoreOne false false f6w).trace.countP isCopyBackupHome = 1
    ∧ (restoreOne false false f6w).trace.countP isConfirmEv = 0
    ∧ (restoreOne false false f6w).st.home = copyEntry f6w.st.backup := by
  refine ⟨by decide, rfl, rfl, ?_, ?_, ?_⟩
  · exact ((c6_restore_guard_and_copy false false f6w).2 (by decide) rfl rfl).1
  · exact ((c6_restore_guard_and_copy false false f6w).2 (by decide) rfl rfl).2.2.2.1
  · exact ((c6_restore_guard_and_copy false false f6w).2 (by decide) rfl rfl).2.2.2.2.1

/-- C7, theorem.  When the path classified at the conflict point exists
but is neither a regular file, nor a directory, nor a symlink, backup()
and restore() raise the classification ValueError before any confirmation
prompt and before any delete or copy (the file's state is untouched and
the step trace holds only the status line), and the error aborts the run:
the remaining files of the set are not processed. -/
theorem c7_unsupported_kind_raises (v : Bool) (f : FileIn) (fs : List FileIn) :
    (guardB f.st = true → pexists f.st.backup = true →
     isfile f.st.backup = false → isdir f.st.backup = false →
     islink f.st.backup = false →
       (backupOne false v f).err = true
       ∧ (backupOne false v f).st = f.st
       ∧ noMutConfirm (backupOne false v f) = true
       ∧ backup false v (f :: fs) = ([backupOne false v f], true))
    ∧ (guardR f = true → pexists f.st.home = true →
       isfile f.st.home = false → isdir f.st.home = false →
       islink f.st.home = false →
         (restoreOne false v f).err = true
         ∧ (restoreOne false v f).st = f.st
         ∧ noMutConfirm (restoreOne false v f) = true
         ∧ restore false v (f :: fs) = ([restoreOne false v f], true)) := by
  obtain ⟨⟨h, b⟩, ans, sup⟩ := f
  cases h <;> cases b <;> cases v <;>
    simp_all [backupOne, restoreOne, backup, restore, runWith, guardB, guardR,
      isfile, isdir, islink, pexists, classify, noMutConfirm, isMutEv,
      isCopyEv, isDeleteEv, isConfirmEv]

/-- C7, witness at concrete inputs: a named pipe at the backup path for
backup(), a named pipe at the home path for restore(). -/
theorem c7_unsupported_kind_raises_witness :
    guardB f7b.st = true
    ∧ guardR f7r = true
    ∧ (backupOne false false f7b).err = true
    ∧ noMutConfirm (backupOne false false f7b) = true
    ∧ backup false false [f7b, f7r] = ([backupOne false false f7b], true)
    ∧ (restoreOne false false f7r).err = true
    ∧ noMutConfirm (restoreOne false false f7r) = true
    ∧ restore false false [f7r, f7b] = ([restoreOne false false f7r], true) := by
  refine ⟨by decide, by decide, ?_, ?_, ?_, ?_, ?_, ?_⟩
  · exact ((c7_unsupported_kind_raises false f7b [f7r]).1 (by decide) (by decide)
      (by decide) (by decide) (by decide)).1
  · exact ((c7_unsupported_kind_raises false f7b [f7r]).1 (by decide) (by decide)
      (by decide) (by decide) (by decide)).2.2.1
  · exact ((c7_unsupported_kind_raises false f7b [f7r]).1 (by decide) (by decide)
      (by decide) (by decide) (by decide)).2.2.2
  · exact ((c7_unsupported_kind_raises false f7r [f7b]).2 (by decide) (by decide)
      (by decide) (by decide) (by decide)).1
  · exact ((c7_unsupported_kind_raises false f7r [f7b]).2 (by decide) (by decide)
      (by decide) (by decide) (by decide)).2.2.1
  · exact ((c7_unsupported_kind_raises false f7r [f7b]).2 (by decide) (by decide)
      (by decide) (by decide) (by decide)).2.2.2

/-- C10, theorem.  restore() never invokes delete on any path, for any file
set, any initial state, any dry-run and verbosity flags and any
confirmation answers; by contrast backup() does delete on a confirmed
replacement, so the asymmetry is real. -/
theorem c10_restore_never_deletes (dv v : Bool) (ins : List FileIn) :
    (restore dv v ins).1.all (fun o => o.trace.all fun e => !isDeleteEv e) = true
    ∧ (backupOne false false fReplace).trace.countP isDeleteEv = 1 := by
  constructor
  · exact runWith_all _ _ (fun f => restoreOne_no_delete dv v f) ins
  · decide

/-- C2, theorem.  Dry-run invariant: for any file set, any initial state
and any confirmation answers, dry-run backup() and restore() process every
file, raise nothing, perform no copy, no delete and no confirmation prompt,
leave every file's state unchanged, and still emit exactly one status line
for every file satisfying the operation's main condition. -/
theorem c2_dry_run_frame (v : Bool) (ins : List FileIn) :
    backup true v ins = (ins.map (backupOne true v), false)
    ∧ restore true v ins = (ins.map (restoreOne true v), false)
    ∧ ins.all (fun f => noMutConfirm (backupOne true v f)) = true
    ∧ ins.all (fun f => noMutConfirm (restoreOne true v f)) = true
    ∧ ins.all (fun f => (backupOne true v f).st == f.st) = true
    ∧ ins.all (fun f => (restoreOne true v f).st == f.st) = true
    ∧ ins.all
        (fun f => !guardB f.st || ((backupOne true v f).trace.countP isStatusEv == 1))
        = true
    ∧ ins.all
        (fun f => !guardR f || ((restoreOne true v f).trace.countP isStatusEv == 1))
        = true := by
  refine ⟨runWith_eq_map _ (fun f => (backupOne_dry_facts v f).1) ins,
          runWith_eq_map _ (fun f => (restoreOne_dry_facts v f).1) ins,
          List.all_eq_true.mpr (fun f _ => (backupOne_dry_facts v f).2.2),
          List.all_eq_true.mpr (fun f _ => (restoreOne_dry_facts v f).2.2),
          List.all_eq_true.mpr (fun f _ => by simp [(backupOne_dry_facts v f).2.1]),
          List.all_eq_true.mpr (fun f _ => by simp [(restoreOne_dry_facts v f).2.1]),
          List.all_eq_true.mpr (fun f _ => (backupOne_counts true v f).2.2),
          List.all_eq_true.mpr (fun f _ => (restoreOne_counts true v f).2.2)⟩

/-- C8, theorem.  Idempotence of backup: after one non-dry backup() run
(with any confirmation answers), running backup() again on the resulting
states with every confirmation prompt refused leaves every file's state
exactly as the first run left it, and the second run performs no copy and
no delete. -/
theorem c8_backup_idempotent (v : Bool) (ins : List FileIn) :
    endStates ((endStates ins (backup false v ins).1).map refuse)
        (backup false v ((endStates ins (backup false v ins).1).map refuse)).1
      = endStates ins (backup false v ins).1
    ∧ ((backup false v ((endStates ins (backup false v ins).1).map refuse)).1.all
        noCopyDelete) = true := by
  induction ins with
  | nil => exact ⟨rfl, rfl⟩
  | cons f fs ih =>
    obtain ⟨h1, h2, h3⟩ := backupOne_second v f
    cases he : (backupOne false v f).err
    · rw [he] at h2
      have e1 : backup false v (f :: fs)
          = (backupOne false v f :: (backup false v fs).1, (backup false v fs).2) := by
        simp [backup, runWith, he]
      rw [e1, endStates_cons, List.map_cons]
      have e2 : backup false v (refuse (backupOne false v f).st
            :: (endStates fs (backup false v fs).1).map refuse)
          = (backupOne false v (refuse (backupOne false v f).st)
              :: (backup false v ((endStates fs (backup false v fs).1).map refuse)).1,
             (backup false v ((endStates fs (backup false v fs).1).map refuse)).2) := by
        simp [backup, runWith, h2]
      rw [e2, endStates_cons]
      constructor
      · rw [h1, ih.1]
      · simp only [List.all_cons, h3, Bool.true_and]
        exact ih.2
    · rw [he] at h2
      have e1 : backup false v (f :: fs) = ([backupOne false v f], true) := by
        simp [backup, runWith, he]
      rw [e1]
      have e3 : endStates (f :: fs) [backupOne false v f]
          = (backupOne false v f).st :: fs.map (fun g => g.st) := by
        simp [endStates]
      rw [e3, List.map_cons]
      have e2 : backup false v (refuse (backupOne false v f).st
            :: (fs.map (fun g => g.st)).map refuse)
          = ([backupOne false v (refuse (backupOne false v f).st)], true) := by
        simp [backup, runWith, h2]
      rw [e2]
      constructor
      · simp [endStates, List.map_map, Function.comp, refuse]
        exact h1
      · simp [h3]

end Mackup
